import Mathlib

/-!
Verification of the firmware-flash decision logic of `particle-cli`
(`FlashCommand` in `src/unnamed/part_000`).

The stateful promise chain of `FlashCommand.flashDfu` is embedded as a pure
function over an explicit environment of external collaborators (file system
stat, known-app resolver, binary parser, per-platform device specs, segment
table lookup, temp-file allocator).  The final call to the external write
primitive `dfu.writeDfu(alt, finalBinary, destAddress, leave, targetDevice)`
is materialised as a `FlashPlan` value holding exactly the arguments that
call receives; errors thrown anywhere in the chain become constructors of
`FlashError`.  `console.log` output is returned alongside the result as a
list of emitted lines.
-/

namespace Particle

/-- JavaScript truthiness of a possibly-`undefined` string variable:
`undefined` and the empty string are falsy, every other string is truthy. -/
def jsTruthy : Option String → Bool
  | none => false
  | some s => decide (s ≠ "")

/-! Numeric values of the external `binary-version-reader` enumeration
`ModuleInfo.FunctionType` that `flashDfu` switches on (lines 136-157).
Only their pairwise distinctness matters to the logic. -/

namespace FunctionType

def MONO_FIRMWARE : Nat := 3

def SYSTEM_PART : Nat := 4

def USER_PART : Nat := 5

def RADIO_STACK : Nat := 8

end FunctionType

/-- `ModuleInfo.Flags.DROP_MODULE_INFO` bit from the external
`binary-version-reader` library (tested at line 159). -/
def DROP_MODULE_INFO : Nat := 1

/-- `ModuleInfo.HEADER_SIZE` from the external `binary-version-reader`
library: the fixed module-header length stripped by `_dropModuleInfo`
(line 193). -/
def HEADER_SIZE : Nat := 24

/-- `info.prefixInfo` as consumed by `flashDfu`: platform id, module
function code, module index, start address (a hex string, as produced by the
external parser and prefixed with `"0x0"` at lines 143/150), module flags. -/
structure PrefixData where
  platformID : Nat
  moduleFunction : Nat
  moduleIndex : Nat
  moduleStartAddy : String
  moduleFlags : Nat
deriving DecidableEq, Repr

/-- `info.suffixInfo` as consumed by `flashDfu` (only `suffixSize`,
line 122). -/
structure SuffixData where
  suffixSize : Nat
deriving DecidableEq, Repr

/-- `info.crc` as consumed by `flashDfu` (only `ok`, line 127). -/
structure CrcData where
  ok : Bool
deriving DecidableEq, Repr

/-- The structured descriptor returned by the external
`HalModuleParser.parseFile`, restricted to the fields `flashDfu` reads. -/
structure ParsedInfo where
  prefixInfo : PrefixData
  suffixInfo : SuffixData
  crc : CrcData
deriving DecidableEq, Repr

/-- The `deviceSpecs[dfu.dfuId]` entry for the connected device:
`productId` (line 132) and the JS truthiness of its `systemFirmwareOne`
segment entry (line 139). -/
structure DeviceSpecs where
  productId : Nat
  systemFirmwareOne : Bool
deriving DecidableEq, Repr

/-- Result shape of the external `dfu._validateSegmentSpecs` as used at
lines 168-172: either an `error` field or a `specs` object whose `address`
may itself be absent or empty. -/
inductive SegmentLookup where
  | error (msg : String)
  | specs (address : Option String)
deriving DecidableEq, Repr

/-- Result of `fs.statSync(binary)` as used at lines 91-107: the call
throws (file absent), or yields a stat for which `isFile()` is true or
false. -/
inductive FileStat where
  | notFound
  | file
  | directory
deriving DecidableEq, Repr

/-- Errors thrown inside the `flashDfu` chain (each constructor corresponds
to one `throw`/rejection site; the trailing `.catch` at line 184 merely
rewraps them with the message `Error writing firmware` and is not modelled
separately).  Per spec section 4.3 step 5 and section 7, both the
`dfu.write: <error>` throw (line 170) and the `Unknown destination` throw
(line 176) belong to the single `UnknownDestination` failure class. -/
inductive FlashError where
  | dfuUtilNotInstalled
  | findDeviceFailed
  | fileNotFoundNoKnownApp
  | notAFile
  | parseFailed (msg : String)
  | crcInvalid
  | platformMismatch (expected parsed : Nat)
  | unknownModuleFunction (code : Nat)
  | segmentSpecError (msg : String)
  | unknownDestination
deriving DecidableEq, Repr

/-- The spec's `UnknownDestination` failure class: covers both throw sites
of the address-resolution step (lines 170 and 176). -/
def isUnknownDestinationError : FlashError → Bool
  | FlashError.segmentSpecError _ => true
  | FlashError.unknownDestination => true
  | _ => false

/-- The arguments of the final external call
`dfu.writeDfu(alt, finalBinary, destAddress, leave, targetDevice)`
(line 182), i.e. the spec's FlashPlan.  `imageSource` is `none` when the
JS variable `finalBinary` is `undefined` at that point. -/
structure FlashPlan where
  alt : Nat := 0
  segmentName : Option String
  address : String
  imageSource : Option String
  leave : Bool
deriving DecidableEq, Repr

/-- The external collaborators consumed by `flashDfu`, with the result
shapes its call sites rely on (spec section 6 lists them as external
interfaces). -/
structure DfuEnv where
  /-- `dfu.isDfuUtilInstalled()` resolves (line 83). -/
  dfuUtilInstalled : Bool
  /-- `dfu.findCompatibleDFU({deviceId})` resolves (line 85). -/
  findCompatibleDFUOk : Bool
  /-- `fs.statSync` on a path (lines 91-107). -/
  stat : String → FileStat
  /-- `dfu.checkKnownApp`: known-app alias to binary path (line 95). -/
  checkKnownApp : String → Option String
  /-- `parser.parseFile`: descriptor or decode failure (line 117). -/
  parseFile : String → Except String ParsedInfo
  /-- `deviceSpecs[dfu.dfuId]` for the connected device (line 131). -/
  deviceSpecs : DeviceSpecs
  /-- `dfu._validateSegmentSpecs` (line 168). -/
  validateSegmentSpecs : String → SegmentLookup
  /-- the temp path `_dropModuleInfo` materialises for a given binary
  (line 194). -/
  tempPath : String → String

/-- Line 110: `destSegment = factory ? 'factoryReset' : 'userFirmware'`. -/
def defaultSegment (factory : Bool) : String :=
  if factory then "factoryReset" else "userFirmware"

/-- Line 13-17: the `systemModuleIndexToString` lookup object; a JS object
lookup yields `undefined` outside keys 1, 2, 3. -/
def systemModuleIndexToString (i : Nat) : Option String :=
  if i = 1 then some "systemFirmwareOne"
  else if i = 2 then some "systemFirmwareTwo"
  else if i = 3 then some "systemFirmwareThree"
  else none

/-- Lines 136-157: the `switch (info.prefixInfo.moduleFunction)` computing
the new `destSegment` and `destAddress` (given the incoming default
segment). -/
def moduleSwitch (specs : DeviceSpecs) (destSegment : Option String)
    (pre : PrefixData) (force : Bool) :
    Except FlashError (Option String × Option String) :=
  if pre.moduleFunction = FunctionType.MONO_FIRMWARE then
    Except.ok
      ((if specs.systemFirmwareOne then some "systemFirmwareOne" else destSegment), none)
  else if pre.moduleFunction = FunctionType.SYSTEM_PART then
    Except.ok
      (systemModuleIndexToString pre.moduleIndex, some ("0x0" ++ pre.moduleStartAddy))
  else if pre.moduleFunction = FunctionType.USER_PART then
    Except.ok (destSegment, none)
  else if pre.moduleFunction = FunctionType.RADIO_STACK then
    Except.ok (some "radioStack", some ("0x0" ++ pre.moduleStartAddy))
  else if force = false then
    Except.error (FlashError.unknownModuleFunction pre.moduleFunction)
  else
    Except.ok (destSegment, none)

/-- Line 159-163: `finalBinary` is the `_dropModuleInfo` temp path when the
`DROP_MODULE_INFO` flag is set, else the original binary. -/
def finalImage (env : DfuEnv) (binary : String) (pre : PrefixData) : String :=
  if Nat.land pre.moduleFlags DROP_MODULE_INFO ≠ 0 then env.tempPath binary else binary

/-- Lines 166-173: compute `destAddress` after the parse stage — when
`destAddress` is falsy and `destSegment` truthy, consult
`dfu._validateSegmentSpecs` and take `segment.specs.address`. -/
def resolveAddress (env : DfuEnv) (destSegment destAddress : Option String) :
    Except FlashError (Option String) :=
  if jsTruthy destAddress = false ∧ jsTruthy destSegment = true then
    match env.validateSegmentSpecs (destSegment.getD "") with
    | SegmentLookup.error e => Except.error (FlashError.segmentSpecError e)
    | SegmentLookup.specs a => Except.ok a
  else
    Except.ok destAddress

/-- Lines 166-182: the final `.then` of `flashDfu` — resolve the address,
fail with `Unknown destination` when it is still falsy, otherwise invoke
the write primitive with `(alt = 0, finalBinary, destAddress, leave)` where
`leave = requestLeave !== undefined ? requestLeave :
(destSegment === 'userFirmware')` (line 181). -/
def resolveAndWrite (env : DfuEnv) (destSegment destAddress finalBinary : Option String)
    (requestLeave : Option Bool) : Except FlashError FlashPlan :=
  match resolveAddress env destSegment destAddress with
  | Except.error e => Except.error e
  | Except.ok none => Except.error FlashError.unknownDestination
  | Except.ok (some s) =>
    if s = "" then Except.error FlashError.unknownDestination
    else
      Except.ok
        { segmentName := destSegment
          address := s
          imageSource := finalBinary
          leave := requestLeave.getD (decide (destSegment = some "userFirmware")) }

/-- Lines 116-164: the parse stage of `flashDfu` applied to a successfully
parsed descriptor.  When `suffixSize = 65535` the chain logs a warning and
returns early, so the chained value (`finalBinary`) is `undefined`; the CRC
check (line 127) precedes the platform check (line 132); then the
module-function switch and the `DROP_MODULE_INFO` handling run. -/
def afterParse (env : DfuEnv) (binary : String) (factory force : Bool)
    (requestLeave : Option Bool) (info : ParsedInfo) :
    Except FlashError FlashPlan × List String :=
  if info.suffixInfo.suffixSize = 65535 then
    (resolveAndWrite env (some (defaultSegment factory)) none none requestLeave,
     ["warn: unable to verify binary info"])
  else if info.crc.ok = false ∧ force = false then
    (Except.error FlashError.crcInvalid, [])
  else if info.prefixInfo.platformID ≠ env.deviceSpecs.productId ∧ force = false then
    (Except.error
       (FlashError.platformMismatch env.deviceSpecs.productId info.prefixInfo.platformID),
     [])
  else
    match moduleSwitch env.deviceSpecs (some (defaultSegment factory)) info.prefixInfo force with
    | Except.error e => (Except.error e, [])
    | Except.ok (seg, addr) =>
      (resolveAndWrite env seg addr (some (finalImage env binary info.prefixInfo)) requestLeave,
       [])

/-- Lines 78-187: `FlashCommand.flashDfu`.  The `device` argument only
selects the DFU target through the external `findCompatibleDFU` and is
folded into `DfuEnv.findCompatibleDFUOk`.  Returns the write-primitive
invocation (or the thrown error) together with the `console.log` lines
emitted along the way. -/
def flashDfu (env : DfuEnv) (binary : String) (factory force : Bool)
    (requestLeave : Option Bool) : Except FlashError FlashPlan × List String :=
  if env.dfuUtilInstalled = false then (Except.error FlashError.dfuUtilNotInstalled, [])
  else if env.findCompatibleDFUOk = false then (Except.error FlashError.findDeviceFailed, [])
  else
    match env.stat binary with
    | FileStat.directory => (Except.error FlashError.notAFile, [])
    | FileStat.notFound =>
      match env.checkKnownApp binary with
      | none => (Except.error FlashError.fileNotFoundNoKnownApp, [])
      | some app =>
        (resolveAndWrite env (some (defaultSegment factory)) none (some app) requestLeave, [])
    | FileStat.file =>
      match env.parseFile binary with
      | Except.error e => (Except.error (FlashError.parseFailed e), [])
      | Except.ok info => afterParse env binary factory force requestLeave info

/-- Lines 189-199: `_dropModuleInfo` on a modelled file store
(path → bytes): it creates `tmpPath` holding the source bytes from offset
`HEADER_SIZE` on, leaving every other path untouched. -/
def dropModuleInfoStore (store : String → Option (List Nat)) (binary tmpPath : String) :
    String → Option (List Nat) :=
  fun p =>
    if p = tmpPath then (store binary).map (fun bs => bs.drop HEADER_SIZE) else store p

/-! ## The transport dispatcher `FlashCommand.flash` (lines 21-66) -/

/-- External collaborators of the USB branch of `flash`: `isDeviceId` from
`device-util` (line 40) and `getDevice` (line 45), the latter returning a
thrown error, or a device info whose `id` field may be absent/falsy. -/
structure FlashEnv where
  isDeviceId : String → Bool
  getDevice : String → Except String (Option String)

/-- Which collaborator the dispatcher delegates to, with the arguments it
passes (`flashDfu` line 57, `flashYModem` line 59, `flashCloud` line 61). -/
inductive DispatchOutcome where
  | dfu (device : Option String) (binary : Option String) (factory force : Bool)
  | ymodem (binary : Option String) (port : Option String) (yes : Bool)
  | cloud (device : Option String) (files : List String) (target : Option String) (yes : Bool)
deriving DecidableEq, Repr

/-- Failures of the dispatcher itself: the bare usage rejection (line 25)
and the `Device ID lookup failed` VError (lines 47 and 53), carrying the
wrapped cause when one exists. -/
inductive DispatchError where
  | usageError
  | deviceLookupFailed (cause : Option String)
deriving DecidableEq, Repr

/-- Lines 21-62: `FlashCommand.flash` up to the choice of collaborator.
In USB mode: a non-empty `files` list makes `files[0]` the binary (device
kept), an empty one unsets `device`; a kept, truthy, non-device-id device
is resolved through `getDevice`, whose thrown error or missing/falsy `id`
is fatal. -/
def flash (env : FlashEnv) (device binary : Option String) (files : List String)
    (usb serial factory force : Bool) (target port : Option String) (yes : Bool) :
    Except DispatchError DispatchOutcome :=
  if jsTruthy device = false ∧ jsTruthy binary = false then
    Except.error DispatchError.usageError
  else if usb then
    match (match files with
           | f :: _ => (device, some f)
           | [] => (none, binary) : Option String × Option String) with
    | (device1, binary1) =>
      if jsTruthy device1 = true ∧ env.isDeviceId (device1.getD "") = false then
        match env.getDevice (device1.getD "") with
        | Except.error e => Except.error (DispatchError.deviceLookupFailed (some e))
        | Except.ok none => Except.error (DispatchError.deviceLookupFailed none)
        | Except.ok (some id) =>
          if id = "" then Except.error (DispatchError.deviceLookupFailed none)
          else Except.ok (DispatchOutcome.dfu (some id) binary1 factory force)
      else Except.ok (DispatchOutcome.dfu device1 binary1 factory force)
  else if serial then Except.ok (DispatchOutcome.ymodem binary port yes)
  else Except.ok (DispatchOutcome.cloud device files target yes)

/-! ## Concrete fixtures used by witnesses and counterexamples -/

/-- A modular platform's specs entry (product id 6, has a
`systemFirmwareOne` segment). -/
def baseSpecs : DeviceSpecs := { productId := 6, systemFirmwareOne := true }

/-- A concrete environment whose parser yields `info` for `app.bin`, with a
segment table holding the usual segments. -/
def baseEnv (info : ParsedInfo) : DfuEnv :=
  { dfuUtilInstalled := true
    findCompatibleDFUOk := true
    stat := fun p => if p = "app.bin" then FileStat.file else FileStat.notFound
    checkKnownApp := fun p => if p = "tinker" then some "tinker.bin" else none
    parseFile := fun p => if p = "app.bin" then Except.ok info else Except.error "ENOENT"
    deviceSpecs := baseSpecs
    validateSegmentSpecs := fun s =>
      if s = "userFirmware" then SegmentLookup.specs (some "0x080A0000")
      else if s = "factoryReset" then SegmentLookup.specs (some "0x080E0000")
      else if s = "systemFirmwareOne" then SegmentLookup.specs (some "0x08020000")
      else SegmentLookup.error "segment not found"
    tempPath := fun p => p ++ ".dropped" }

/-- A plain valid user-part descriptor (used by environments whose parse
result is irrelevant to the statement at hand). -/
def plainInfo : ParsedInfo :=
  { prefixInfo := { platformID := 6, moduleFunction := FunctionType.USER_PART,
                    moduleIndex := 0, moduleStartAddy := "80a0000", moduleFlags := 0 }
    suffixInfo := { suffixSize := 36 }
    crc := { ok := true } }

/-- A valid system-part descriptor with module index 2. -/
def c1Info : ParsedInfo :=
  { prefixInfo := { platformID := 6, moduleFunction := FunctionType.SYSTEM_PART,
                    moduleIndex := 2, moduleStartAddy := "8040000", moduleFlags := 0 }
    suffixInfo := { suffixSize := 36 }
    crc := { ok := true } }

/-- A user-part descriptor whose CRC check failed. -/
def c2Info : ParsedInfo :=
  { prefixInfo := { platformID := 6, moduleFunction := FunctionType.USER_PART,
                    moduleIndex := 0, moduleStartAddy := "80a0000", moduleFlags := 0 }
    suffixInfo := { suffixSize := 36 }
    crc := { ok := false } }

/-- The same image as `c2Info` but with a valid CRC. -/
def c2InfoOk : ParsedInfo :=
  { prefixInfo := { platformID := 6, moduleFunction := FunctionType.USER_PART,
                    moduleIndex := 0, moduleStartAddy := "80a0000", moduleFlags := 0 }
    suffixInfo := { suffixSize := 36 }
    crc := { ok := true } }

/-- A descriptor with the unknown-suffix sentinel and the
`DROP_MODULE_INFO` flag set. -/
def c4Info : ParsedInfo :=
  { prefixInfo := { platformID := 6, moduleFunction := FunctionType.USER_PART,
                    moduleIndex := 0, moduleStartAddy := "80a0000", moduleFlags := 1 }
    suffixInfo := { suffixSize := 65535 }
    crc := { ok := true } }

/-- A verifiable descriptor with the `DROP_MODULE_INFO` flag set. -/
def c4InfoDrop : ParsedInfo :=
  { prefixInfo := { platformID := 6, moduleFunction := FunctionType.USER_PART,
                    moduleIndex := 0, moduleStartAddy := "80a0000", moduleFlags := 1 }
    suffixInfo := { suffixSize := 36 }
    crc := { ok := true } }

/-- A descriptor with the unknown-suffix sentinel (no flags). -/
def c5Info : ParsedInfo :=
  { prefixInfo := { platformID := 6, moduleFunction := FunctionType.USER_PART,
                    moduleIndex := 0, moduleStartAddy := "80a0000", moduleFlags := 0 }
    suffixInfo := { suffixSize := 65535 }
    crc := { ok := true } }

/-- A valid user-part descriptor (for the factory-flag scenario). -/
def c6Info : ParsedInfo :=
  { prefixInfo := { platformID := 6, moduleFunction := FunctionType.USER_PART,
                    moduleIndex := 0, moduleStartAddy := "80a0000", moduleFlags := 0 }
    suffixInfo := { suffixSize := 36 }
    crc := { ok := true } }

/-- A valid system-part descriptor with a module index outside 1..3. -/
def c10Info : ParsedInfo :=
  { prefixInfo := { platformID := 6, moduleFunction := FunctionType.SYSTEM_PART,
                    moduleIndex := 7, moduleStartAddy := "30000", moduleFlags := 0 }
    suffixInfo := { suffixSize := 36 }
    crc := { ok := true } }

/-- An environment whose segment table rejects every lookup. -/
def c3Env : DfuEnv :=
  { baseEnv plainInfo with
      validateSegmentSpecs := fun _ => SegmentLookup.error "segment missing" }

/-- An environment whose parser fails on every file. -/
def c8ParseEnv : DfuEnv :=
  { baseEnv plainInfo with parseFile := fun _ => Except.error "decode failure" }

/-- An environment whose segment table yields a specs object with no
address. -/
def c8DestEnv : DfuEnv :=
  { baseEnv plainInfo with
      validateSegmentSpecs := fun _ => SegmentLookup.specs none }

/-- A dispatcher environment: one known device id, and a directory that
resolves the name `myphoton` to that id. -/
def c9Env : FlashEnv :=
  { isDeviceId := fun s => s = "123456789abcdef012345678"
    getDevice := fun s =>
      if s = "myphoton" then Except.ok (some "123456789abcdef012345678")
      else Except.error "device not found" }

/-- A concrete file store for exercising `dropModuleInfoStore`. -/
def c4Store : String → Option (List Nat) :=
  fun p => if p = "app.bin" then some ((List.range 30).map (fun i => i + 100)) else none

/-! ## Helper lemmas about the resolution step -/

theorem zeroX_ne_empty (s : String) : ("0x0" ++ s) ≠ "" := by
  intro h
  have hl := congrArg String.length h
  rw [String.length_append] at hl
  have h3 : ("0x0" : String).length = 3 := rfl
  have h0 : ("" : String).length = 0 := rfl
  rw [h3, h0] at hl
  omega

theorem jsTruthy_zeroX (s : String) : jsTruthy (some ("0x0" ++ s)) = true := by
  simp [jsTruthy, zeroX_ne_empty]

theorem defaultSegment_ne_empty (factory : Bool) : defaultSegment factory ≠ "" := by
  cases factory <;> simp [defaultSegment]

/-- A truthy descriptor-provided address short-circuits the segment-table
lookup (lines 166-182 with `destAddress` already set). -/
theorem resolveAndWrite_direct (env : DfuEnv) (seg fb : Option String) (rl : Option Bool)
    (a : String) (ha : a ≠ "") :
    resolveAndWrite env seg (some a) fb rl =
      Except.ok { segmentName := seg, address := a, imageSource := fb,
                  leave := rl.getD (decide (seg = some "userFirmware")) } := by
  unfold resolveAndWrite resolveAddress
  simp [jsTruthy, ha]

/-- A falsy address with a truthy segment goes through the table and uses
the returned address when it is truthy. -/
theorem resolveAndWrite_lookup (env : DfuEnv) (s : String) (hs : s ≠ "")
    (fb : Option String) (rl : Option Bool) (a : String)
    (hla : env.validateSegmentSpecs s = SegmentLookup.specs (some a)) (ha : a ≠ "") :
    resolveAndWrite env (some s) none fb rl =
      Except.ok { segmentName := some s, address := a, imageSource := fb,
                  leave := rl.getD (decide ((some s : Option String) = some "userFirmware")) } := by
  unfold resolveAndWrite resolveAddress
  simp [jsTruthy, hs, hla, ha]

theorem resolveAddress_error (env : DfuEnv) (seg addr : Option String) (e : FlashError)
    (h : resolveAddress env seg addr = Except.error e) :
    ∃ m, e = FlashError.segmentSpecError m := by
  unfold resolveAddress at h
  split at h
  · split at h
    · injection h with h
      exact ⟨_, h.symm⟩
    · cases h
  · cases h

/-- Every successful resolution carries the segment it was given, a
non-empty address, the image it was given and the computed leave flag. -/
theorem resolveAndWrite_ok_fields (env : DfuEnv) (seg addr fb : Option String)
    (rl : Option Bool) (plan : FlashPlan)
    (h : resolveAndWrite env seg addr fb rl = Except.ok plan) :
    plan.segmentName = seg ∧ plan.address ≠ "" ∧ plan.imageSource = fb ∧
    plan.leave = rl.getD (decide (seg = some "userFirmware")) := by
  unfold resolveAndWrite at h
  cases hra : resolveAddress env seg addr with
  | error e => rw [hra] at h; cases h
  | ok a =>
    rw [hra] at h
    cases a with
    | none => cases h
    | some s =>
      by_cases hs : s = ""
      · simp [hs] at h
      · simp only [hs, if_false, Except.ok.injEq] at h
        subst h
        simp [hs]

/-- Every failure of the resolution step is of the spec's
`UnknownDestination` class. -/
theorem resolveAndWrite_error_class (env : DfuEnv) (seg addr fb : Option String)
    (rl : Option Bool) (e : FlashError)
    (h : resolveAndWrite env seg addr fb rl = Except.error e) :
    isUnknownDestinationError e = true := by
  unfold resolveAndWrite at h
  cases hra : resolveAddress env seg addr with
  | error e' =>
    rw [hra] at h
    injection h with h
    obtain ⟨m, rfl⟩ := resolveAddress_error env seg addr e' hra
    subst h
    rfl
  | ok a =>
    rw [hra] at h
    cases a with
    | none =>
      injection h with h
      subst h
      rfl
    | some s =>
      by_cases hs : s = ""
      · simp only [hs, if_true] at h
        injection h with h
        subst h
        rfl
      · simp [hs] at h

/-! ## Structural lemmas about `flashDfu` -/

/-- With the preliminary stages succeeding and the file parsing, `flashDfu`
is the parse-stage continuation. -/
theorem flashDfu_parsed_eval (env : DfuEnv) (binary : String) (factory force : Bool)
    (rl : Option Bool) (info : ParsedInfo)
    (hdfu : env.dfuUtilInstalled = true) (hfind : env.findCompatibleDFUOk = true)
    (hstat : env.stat binary = FileStat.file)
    (hparse : env.parseFile binary = Except.ok info) :
    flashDfu env binary factory force rl = afterParse env binary factory force rl info := by
  unfold flashDfu
  rw [hdfu, hfind, hstat, hparse]
  rfl

/-- With both validation checks passing (or forced) and the module switch
returning a segment/address pair, the parse stage ends in the resolution
step on that pair. -/
theorem afterParse_switch (env : DfuEnv) (binary : String) (factory force : Bool)
    (rl : Option Bool) (info : ParsedInfo) (seg addr : Option String)
    (hsuffix : info.suffixInfo.suffixSize ≠ 65535)
    (hcrc : info.crc.ok = true ∨ force = true)
    (hplat : info.prefixInfo.platformID = env.deviceSpecs.productId ∨ force = true)
    (hsw : moduleSwitch env.deviceSpecs (some (defaultSegment factory)) info.prefixInfo force =
           Except.ok (seg, addr)) :
    afterParse env binary factory force rl info =
      (resolveAndWrite env seg addr (some (finalImage env binary info.prefixInfo)) rl, []) := by
  have h1 : ¬(info.crc.ok = false ∧ force = false) := by
    rcases hcrc with hc | hf
    · intro hx; rw [hc] at hx; exact absurd hx.1 (by simp)
    · intro hx; rw [hf] at hx; exact absurd hx.2 (by simp)
  have h2 : ¬(info.prefixInfo.platformID ≠ env.deviceSpecs.productId ∧ force = false) := by
    rcases hplat with hp | hf
    · intro hx; exact hx.1 hp
    · intro hx; rw [hf] at hx; exact absurd hx.2 (by simp)
  unfold afterParse
  rw [if_neg hsuffix, if_neg h1, if_neg h2, hsw]

/-- The module switch on a SYSTEM_PART descriptor. -/
theorem moduleSwitch_system_part (specs : DeviceSpecs) (seg : Option String)
    (pre : PrefixData) (force : Bool)
    (hmf : pre.moduleFunction = FunctionType.SYSTEM_PART) :
    moduleSwitch specs seg pre force =
      Except.ok (systemModuleIndexToString pre.moduleIndex,
                 some ("0x0" ++ pre.moduleStartAddy)) := by
  unfold moduleSwitch
  rw [hmf]
  simp [FunctionType.SYSTEM_PART, FunctionType.MONO_FIRMWARE]

/-- The module switch on a USER_PART descriptor keeps the default segment
and sets no address. -/
theorem moduleSwitch_user_part (specs : DeviceSpecs) (seg : Option String)
    (pre : PrefixData) (force : Bool)
    (hmf : pre.moduleFunction = FunctionType.USER_PART) :
    moduleSwitch specs seg pre force = Except.ok (seg, none) := by
  unfold moduleSwitch
  rw [hmf]
  simp [FunctionType.SYSTEM_PART, FunctionType.MONO_FIRMWARE, FunctionType.USER_PART]

/-- With `force` set the module switch never fails. -/
theorem moduleSwitch_force_ok (specs : DeviceSpecs) (seg : Option String)
    (pre : PrefixData) :
    ∃ p, moduleSwitch specs seg pre true = Except.ok p := by
  unfold moduleSwitch
  repeat' split
  all_goals first
    | exact ⟨_, rfl⟩
    | simp_all

/-- Every successful run of `flashDfu` went through the resolution step. -/
theorem flashDfu_ok_resolve (env : DfuEnv) (binary : String) (factory force : Bool)
    (rl : Option Bool) (plan : FlashPlan)
    (h : (flashDfu env binary factory force rl).1 = Except.ok plan) :
    ∃ seg addr fb, resolveAndWrite env seg addr fb rl = Except.ok plan := by
  unfold flashDfu afterParse at h
  repeat' split at h
  all_goals try exact ⟨_, _, _, h⟩
  all_goals simp at h

/-- A SYSTEM_PART image that passes (or forces past) validation resolves to
the index-table segment and the descriptor-provided address, with no part
of the result depending on the segment table. -/
theorem flashDfu_system_part_eval (env : DfuEnv) (binary : String) (factory force : Bool)
    (rl : Option Bool) (info : ParsedInfo)
    (hdfu : env.dfuUtilInstalled = true) (hfind : env.findCompatibleDFUOk = true)
    (hstat : env.stat binary = FileStat.file)
    (hparse : env.parseFile binary = Except.ok info)
    (hsuffix : info.suffixInfo.suffixSize ≠ 65535)
    (hcrc : info.crc.ok = true ∨ force = true)
    (hplat : info.prefixInfo.platformID = env.deviceSpecs.productId ∨ force = true)
    (hmf : info.prefixInfo.moduleFunction = FunctionType.SYSTEM_PART) :
    flashDfu env binary factory force rl =
      (Except.ok { segmentName := systemModuleIndexToString info.prefixInfo.moduleIndex,
                   address := "0x0" ++ info.prefixInfo.moduleStartAddy,
                   imageSource := some (finalImage env binary info.prefixInfo),
                   leave := rl.getD (decide (systemModuleIndexToString info.prefixInfo.moduleIndex =
                                             some "userFirmware")) },
       []) := by
  rw [flashDfu_parsed_eval env binary factory force rl info hdfu hfind hstat hparse]
  rw [afterParse_switch env binary factory force rl info _ _ hsuffix hcrc hplat
        (moduleSwitch_system_part env.deviceSpecs _ info.prefixInfo force hmf)]
  rw [resolveAndWrite_direct env _ _ rl _ (zeroX_ne_empty info.prefixInfo.moduleStartAddy)]

/-- The resolution step depends on its environment only through the
segment table. -/
theorem resolveAndWrite_congr (env env' : DfuEnv)
    (h : env.validateSegmentSpecs = env'.validateSegmentSpecs)
    (seg addr fb : Option String) (rl : Option Bool) :
    resolveAndWrite env seg addr fb rl = resolveAndWrite env' seg addr fb rl := by
  unfold resolveAndWrite resolveAddress
  rw [h]

/-- The known-app path: no parsing, default segment, the known-app image. -/
theorem flashDfu_known_app_eval (env : DfuEnv) (binary app : String) (factory force : Bool)
    (rl : Option Bool)
    (hdfu : env.dfuUtilInstalled = true) (hfind : env.findCompatibleDFUOk = true)
    (hstat : env.stat binary = FileStat.notFound)
    (happ : env.checkKnownApp binary = some app) :
    flashDfu env binary factory force rl =
      (resolveAndWrite env (some (defaultSegment factory)) none (some app) rl, []) := by
  unfold flashDfu
  rw [hdfu, hfind, hstat, happ]
  rfl

/-- The sentinel path: warn, then resolve the default segment with an
`undefined` chained image. -/
theorem flashDfu_sentinel_eval (env : DfuEnv) (binary : String) (factory force : Bool)
    (rl : Option Bool) (info : ParsedInfo)
    (hdfu : env.dfuUtilInstalled = true) (hfind : env.findCompatibleDFUOk = true)
    (hstat : env.stat binary = FileStat.file)
    (hparse : env.parseFile binary = Except.ok info)
    (hsent : info.suffixInfo.suffixSize = 65535) :
    flashDfu env binary factory force rl =
      (resolveAndWrite env (some (defaultSegment factory)) none none rl,
       ["warn: unable to verify binary info"]) := by
  rw [flashDfu_parsed_eval env binary factory force rl info hdfu hfind hstat hparse]
  unfold afterParse
  rw [if_pos hsent]

/-- A USER_PART image with passing (or forced) checks resolves the default
segment with the (possibly header-stripped) image. -/
theorem flashDfu_user_part_eval (env : DfuEnv) (binary : String) (factory force : Bool)
    (rl : Option Bool) (info : ParsedInfo)
    (hdfu : env.dfuUtilInstalled = true) (hfind : env.findCompatibleDFUOk = true)
    (hstat : env.stat binary = FileStat.file)
    (hparse : env.parseFile binary = Except.ok info)
    (hsuffix : info.suffixInfo.suffixSize ≠ 65535)
    (hcrc : info.crc.ok = true ∨ force = true)
    (hplat : info.prefixInfo.platformID = env.deviceSpecs.productId ∨ force = true)
    (hmf : info.prefixInfo.moduleFunction = FunctionType.USER_PART) :
    flashDfu env binary factory force rl =
      (resolveAndWrite env (some (defaultSegment factory)) none
         (some (finalImage env binary info.prefixInfo)) rl, []) := by
  rw [flashDfu_parsed_eval env binary factory force rl info hdfu hfind hstat hparse]
  rw [afterParse_switch env binary factory force rl info _ _ hsuffix hcrc hplat
        (moduleSwitch_user_part env.deviceSpecs _ info.prefixInfo force hmf)]

/-- With `force` set, the parse stage can only fail for destination
reasons. -/
theorem afterParse_force_error_class (env : DfuEnv) (binary : String) (factory : Bool)
    (rl : Option Bool) (info : ParsedInfo) (e : FlashError)
    (h : (afterParse env binary factory true rl info).1 = Except.error e) :
    isUnknownDestinationError e = true := by
  unfold afterParse at h
  by_cases hs : info.suffixInfo.suffixSize = 65535
  · rw [if_pos hs] at h
    exact resolveAndWrite_error_class _ _ _ _ _ _ h
  · rw [if_neg hs, if_neg (by simp), if_neg (by simp)] at h
    obtain ⟨⟨seg, addr⟩, hp⟩ :=
      moduleSwitch_force_ok env.deviceSpecs (some (defaultSegment factory)) info.prefixInfo
    rw [hp] at h
    exact resolveAndWrite_error_class _ _ _ _ _ _ h

/-- With `force` set, the only failures of `flashDfu` are the preliminary
ones, a parse failure, or a destination failure. -/
theorem flashDfu_force_error_class (env : DfuEnv) (binary : String) (factory : Bool)
    (rl : Option Bool) (e : FlashError)
    (h : (flashDfu env binary factory true rl).1 = Except.error e) :
    e = FlashError.dfuUtilNotInstalled ∨ e = FlashError.findDeviceFailed ∨
    e = FlashError.notAFile ∨ e = FlashError.fileNotFoundNoKnownApp ∨
    (∃ m, e = FlashError.parseFailed m) ∨ isUnknownDestinationError e = true := by
  unfold flashDfu at h
  by_cases h1 : env.dfuUtilInstalled = false
  · rw [if_pos h1] at h
    injection h with h
    exact Or.inl h.symm
  rw [if_neg h1] at h
  by_cases h2 : env.findCompatibleDFUOk = false
  · rw [if_pos h2] at h
    injection h with h
    exact Or.inr (Or.inl h.symm)
  rw [if_neg h2] at h
  cases hstat : env.stat binary <;> rw [hstat] at h
  · cases happ : env.checkKnownApp binary <;> rw [happ] at h
    · injection h with h
      exact Or.inr (Or.inr (Or.inr (Or.inl h.symm)))
    · exact Or.inr (Or.inr (Or.inr (Or.inr (Or.inr
        (resolveAndWrite_error_class _ _ _ _ _ _ h)))))
  · cases hp : env.parseFile binary <;> rw [hp] at h
    · injection h with h
      rcases h with ⟨m, rfl⟩
      exact Or.inr (Or.inr (Or.inr (Or.inr (Or.inl ⟨_, rfl⟩))))
    · exact Or.inr (Or.inr (Or.inr (Or.inr (Or.inr
        (afterParse_force_error_class _ _ _ _ _ _ h)))))
  · injection h with h
    exact Or.inr (Or.inr (Or.inl h.symm))

/-- With `force` set and a non-sentinel suffix, the parse stage reduces to
the module switch followed by resolution (both checks are disarmed). -/
theorem afterParse_force_eval (env : DfuEnv) (binary : String) (factory : Bool)
    (rl : Option Bool) (info : ParsedInfo)
    (hsuffix : info.suffixInfo.suffixSize ≠ 65535) :
    afterParse env binary factory true rl info =
      (match moduleSwitch env.deviceSpecs (some (defaultSegment factory)) info.prefixInfo true with
       | Except.error e => (Except.error e, [])
       | Except.ok (seg, addr) =>
         (resolveAndWrite env seg addr (some (finalImage env binary info.prefixInfo)) rl, [])) := by
  unfold afterParse
  rw [if_neg hsuffix, if_neg (by simp), if_neg (by simp)]

/-- One more resolution-shape lemma: a falsy address with a truthy segment
whose table entry is a specs object without an address fails with
`Unknown destination`. -/
theorem resolveAndWrite_lookup_none (env : DfuEnv) (s : String) (hs : s ≠ "")
    (fb : Option String) (rl : Option Bool)
    (hla : env.validateSegmentSpecs s = SegmentLookup.specs none) :
    resolveAndWrite env (some s) none fb rl =
      Except.error FlashError.unknownDestination := by
  unfold resolveAndWrite resolveAddress
  simp [jsTruthy, hs, hla]

/-! ## The claims -/

/-- Claim C1: for every image descriptor with moduleFunction = SYSTEM_PART
and moduleIndex in 1..3 that passes validation (or is forced), the resolved
segment name is systemFirmwareOne/Two/Three respectively, and the resolved
address is the descriptor's moduleStartAddy in the canonical 0x0-prefixed
hex form, overriding any segment-table lookup (the result does not depend
on the segment table at all). -/
theorem c1_system_part_resolution (env : DfuEnv) (binary : String)
    (factory force : Bool) (rl : Option Bool) (info : ParsedInfo)
    (hdfu : env.dfuUtilInstalled = true) (hfind : env.findCompatibleDFUOk = true)
    (hstat : env.stat binary = FileStat.file)
    (hparse : env.parseFile binary = Except.ok info)
    (hsuffix : info.suffixInfo.suffixSize ≠ 65535)
    (hcrc : info.crc.ok = true ∨ force = true)
    (hplat : info.prefixInfo.platformID = env.deviceSpecs.productId ∨ force = true)
    (hmf : info.prefixInfo.moduleFunction = FunctionType.SYSTEM_PART)
    (hidx : info.prefixInfo.moduleIndex = 1 ∨ info.prefixInfo.moduleIndex = 2 ∨
            info.prefixInfo.moduleIndex = 3) :
    (flashDfu env binary factory force rl).1 =
      Except.ok { segmentName := systemModuleIndexToString info.prefixInfo.moduleIndex,
                  address := "0x0" ++ info.prefixInfo.moduleStartAddy,
                  imageSource := some (finalImage env binary info.prefixInfo),
                  leave := rl.getD false } ∧
    (info.prefixInfo.moduleIndex = 1 →
       systemModuleIndexToString info.prefixInfo.moduleIndex = some "systemFirmwareOne") ∧
    (info.prefixInfo.moduleIndex = 2 →
       systemModuleIndexToString info.prefixInfo.moduleIndex = some "systemFirmwareTwo") ∧
    (info.prefixInfo.moduleIndex = 3 →
       systemModuleIndexToString info.prefixInfo.moduleIndex = some "systemFirmwareThree") ∧
    (∀ f, flashDfu { env with validateSegmentSpecs := f } binary factory force rl =
          flashDfu env binary factory force rl) := by
  have hdec : decide (systemModuleIndexToString info.prefixInfo.moduleIndex =
      some "userFirmware") = false := by
    rcases hidx with h | h | h <;> simp [systemModuleIndexToString, h]
  have heval := flashDfu_system_part_eval env binary factory force rl info
    hdfu hfind hstat hparse hsuffix hcrc hplat hmf
  refine ⟨?_, ?_, ?_, ?_, ?_⟩
  · rw [heval]
    simp [hdec]
  · intro h; simp [systemModuleIndexToString, h]
  · intro h; simp [systemModuleIndexToString, h]
  · intro h; simp [systemModuleIndexToString, h]
  · intro f
    have heval2 := flashDfu_system_part_eval { env with validateSegmentSpecs := f } binary
      factory force rl info hdfu hfind hstat hparse hsuffix hcrc hplat hmf
    rw [heval, heval2]
    rfl

/-- Witness for C1 at a concrete environment and image. -/
theorem c1_witness :
    (flashDfu (baseEnv c1Info) "app.bin" false false none).1 =
      Except.ok { segmentName := some "systemFirmwareTwo", address := "0x08040000",
                  imageSource := some "app.bin", leave := false } :=
  (c1_system_part_resolution (baseEnv c1Info) "app.bin" false false none c1Info
     rfl rfl rfl rfl (by decide) (Or.inl rfl) (Or.inl rfl) rfl (Or.inr (Or.inl rfl))).1

/-- Claim C10: a validated (or forced) SYSTEM_PART descriptor whose
moduleIndex is outside 1..3 still resolves: the address comes from the
descriptor's start address, the segment name becomes undefined (`none`, so
the segment table is never consulted) and the leave flag is false unless
explicitly requested. -/
theorem c10_system_part_unknown_index (env : DfuEnv) (binary : String)
    (factory force : Bool) (rl : Option Bool) (info : ParsedInfo)
    (hdfu : env.dfuUtilInstalled = true) (hfind : env.findCompatibleDFUOk = true)
    (hstat : env.stat binary = FileStat.file)
    (hparse : env.parseFile binary = Except.ok info)
    (hsuffix : info.suffixInfo.suffixSize ≠ 65535)
    (hcrc : info.crc.ok = true ∨ force = true)
    (hplat : info.prefixInfo.platformID = env.deviceSpecs.productId ∨ force = true)
    (hmf : info.prefixInfo.moduleFunction = FunctionType.SYSTEM_PART)
    (hidx1 : info.prefixInfo.moduleIndex ≠ 1) (hidx2 : info.prefixInfo.moduleIndex ≠ 2)
    (hidx3 : info.prefixInfo.moduleIndex ≠ 3) :
    (flashDfu env binary factory force rl).1 =
      Except.ok { segmentName := none,
                  address := "0x0" ++ info.prefixInfo.moduleStartAddy,
                  imageSource := some (finalImage env binary info.prefixInfo),
                  leave := rl.getD false } ∧
    systemModuleIndexToString info.prefixInfo.moduleIndex = none ∧
    (∀ f, flashDfu { env with validateSegmentSpecs := f } binary factory force rl =
          flashDfu env binary factory force rl) := by
  have hnone : systemModuleIndexToString info.prefixInfo.moduleIndex = none := by
    simp [systemModuleIndexToString, hidx1, hidx2, hidx3]
  have heval := flashDfu_system_part_eval env binary factory force rl info
    hdfu hfind hstat hparse hsuffix hcrc hplat hmf
  refine ⟨?_, hnone, ?_⟩
  · rw [heval]
    simp [hnone]
  · intro f
    have heval2 := flashDfu_system_part_eval { env with validateSegmentSpecs := f } binary
      factory force rl info hdfu hfind hstat hparse hsuffix hcrc hplat hmf
    rw [heval, heval2]
    rfl

/-- Witness for C10 at a concrete environment and image (module index 7). -/
theorem c10_witness :
    (flashDfu (baseEnv c10Info) "app.bin" false false none).1 =
      Except.ok { segmentName := none, address := "0x030000",
                  imageSource := some "app.bin", leave := false } :=
  (c10_system_part_unknown_index (baseEnv c10Info) "app.bin" false false none c10Info
     rfl rfl rfl rfl (by decide) (Or.inl rfl) (Or.inl rfl) rfl
     (by decide) (by decide) (by decide)).1

/-- Claim C5: a parsed image whose suffixSize is the 65535 sentinel makes
the flow emit the warning and skip both the CRC and the platform check
(the run is exactly the default-segment resolution, mentioning neither
check), and it can only fail for destination reasons, never on account of
the missing suffix metadata. -/
theorem c5_unknown_suffix_sentinel (env : DfuEnv) (binary : String)
    (factory force : Bool) (rl : Option Bool) (info : ParsedInfo)
    (hdfu : env.dfuUtilInstalled = true) (hfind : env.findCompatibleDFUOk = true)
    (hstat : env.stat binary = FileStat.file)
    (hparse : env.parseFile binary = Except.ok info)
    (hsent : info.suffixInfo.suffixSize = 65535) :
    flashDfu env binary factory force rl =
      (resolveAndWrite env (some (defaultSegment factory)) none none rl,
       ["warn: unable to verify binary info"]) ∧
    (∀ e, (flashDfu env binary factory force rl).1 = Except.error e →
       isUnknownDestinationError e = true) := by
  have heval := flashDfu_sentinel_eval env binary factory force rl info
    hdfu hfind hstat hparse hsent
  refine ⟨heval, ?_⟩
  intro e he
  rw [heval] at he
  exact resolveAndWrite_error_class _ _ _ _ _ _ he

/-- Witness for C5 at a concrete environment and image. -/
theorem c5_witness :
    flashDfu (baseEnv c5Info) "app.bin" false false none =
      (resolveAndWrite (baseEnv c5Info) (some (defaultSegment false)) none none none,
       ["warn: unable to verify binary info"]) :=
  (c5_unknown_suffix_sentinel (baseEnv c5Info) "app.bin" false false none c5Info
     rfl rfl rfl rfl rfl).1

/-- Claim C7: an image argument whose path does not exist but matches a
known-app alias skips parsing and every descriptor-based branch (the run
does not depend on the parser at all) and resolves the address solely from
the step-1 default segment through the segment-spec table. -/
theorem c7_known_app_bypass (env : DfuEnv) (binary app : String)
    (factory force : Bool) (rl : Option Bool)
    (hdfu : env.dfuUtilInstalled = true) (hfind : env.findCompatibleDFUOk = true)
    (hstat : env.stat binary = FileStat.notFound)
    (happ : env.checkKnownApp binary = some app) :
    flashDfu env binary factory force rl =
      (resolveAndWrite env (some (defaultSegment factory)) none (some app) rl, []) ∧
    (∀ pf, flashDfu { env with parseFile := pf } binary factory force rl =
           flashDfu env binary factory force rl) ∧
    (∀ a, env.validateSegmentSpecs (defaultSegment factory) = SegmentLookup.specs (some a) →
       a ≠ "" →
       (flashDfu env binary factory force rl).1 =
         Except.ok { segmentName := some (defaultSegment factory), address := a,
                     imageSource := some app,
                     leave := rl.getD (decide ((some (defaultSegment factory) : Option String) =
                                               some "userFirmware")) }) := by
  have heval := flashDfu_known_app_eval env binary app factory force rl hdfu hfind hstat happ
  refine ⟨heval, ?_, ?_⟩
  · intro pf
    rw [heval,
        flashDfu_known_app_eval { env with parseFile := pf } binary app factory force rl
          hdfu hfind hstat happ]
    rfl
  · intro a hla ha
    rw [heval]
    show resolveAndWrite env (some (defaultSegment factory)) none (some app) rl = _
    rw [resolveAndWrite_lookup env (defaultSegment factory) (defaultSegment_ne_empty factory)
          (some app) rl a hla ha]

/-- Witness for C7 at a concrete environment (`tinker` known-app alias). -/
theorem c7_witness :
    (flashDfu (baseEnv plainInfo) "tinker" false false none).1 =
      Except.ok { segmentName := some "userFirmware", address := "0x080A0000",
                  imageSource := some "tinker.bin", leave := true } :=
  (c7_known_app_bypass (baseEnv plainInfo) "tinker" "tinker.bin" false false none
     rfl rfl rfl rfl).2.2 "0x080A0000" rfl (by decide)

/-- Claim C4 (code bug): at the unknown-suffix sentinel the early return
leaves the chained value `undefined`, so the external write primitive
receives no image at all (`imageSource = none`) rather than the original
binary — the `DROP_MODULE_INFO` flag of `c4Info` is even set and is never
consulted.  On a non-sentinel image the flag is honoured (the temp path is
delivered) and without the flag the original path is delivered; the store
model of `_dropModuleInfo` materialises exactly the bytes from offset
`HEADER_SIZE` on at the temp path and leaves the original file untouched. -/
theorem c4_sentinel_bypasses_image_delivery :
    flashDfu (baseEnv c4Info) "app.bin" false false none =
      (Except.ok { segmentName := some "userFirmware", address := "0x080A0000",
                   imageSource := none, leave := true },
       ["warn: unable to verify binary info"]) ∧
    (none : Option String) ≠ some "app.bin" ∧
    flashDfu (baseEnv c4InfoDrop) "app.bin" false false none =
      (Except.ok { segmentName := some "userFirmware", address := "0x080A0000",
                   imageSource := some "app.bin.dropped", leave := true }, []) ∧
    flashDfu (baseEnv plainInfo) "app.bin" false false none =
      (Except.ok { segmentName := some "userFirmware", address := "0x080A0000",
                   imageSource := some "app.bin", leave := true }, []) ∧
    dropModuleInfoStore c4Store "app.bin" "app.bin.dropped" "app.bin.dropped" =
      some (((List.range 30).map (fun i => i + 100)).drop HEADER_SIZE) ∧
    dropModuleInfoStore c4Store "app.bin" "app.bin.dropped" "app.bin" = c4Store "app.bin" :=
  ⟨rfl, by simp, rfl, rfl, rfl, rfl⟩

/-- Claim C2: a parsed image with an invalid CRC and a non-sentinel suffix
fails with the CRC-invalid error when force is unset; with force set the
run is identical to the run on the same image with a valid CRC, i.e. it
succeeds with exactly the segment and address that would otherwise apply. -/
theorem c2_crc_force (env : DfuEnv) (binary : String) (factory : Bool)
    (rl : Option Bool) (info : ParsedInfo)
    (hdfu : env.dfuUtilInstalled = true) (hfind : env.findCompatibleDFUOk = true)
    (hstat : env.stat binary = FileStat.file)
    (hparse : env.parseFile binary = Except.ok info)
    (hsuffix : info.suffixInfo.suffixSize ≠ 65535)
    (hcrc : info.crc.ok = false) :
    (flashDfu env binary factory false rl).1 = Except.error FlashError.crcInvalid ∧
    flashDfu env binary factory true rl =
      flashDfu
        { env with parseFile := fun p =>
            if p = binary then Except.ok { info with crc := { ok := true } }
            else env.parseFile p }
        binary factory true rl := by
  constructor
  · rw [flashDfu_parsed_eval env binary factory false rl info hdfu hfind hstat hparse]
    unfold afterParse
    rw [if_neg hsuffix, if_pos ⟨hcrc, rfl⟩]
  · rw [flashDfu_parsed_eval env binary factory true rl info hdfu hfind hstat hparse,
        flashDfu_parsed_eval
          { env with parseFile := fun p =>
              if p = binary then Except.ok { info with crc := { ok := true } }
              else env.parseFile p }
          binary factory true rl { info with crc := { ok := true } }
          hdfu hfind hstat (by simp),
        afterParse_force_eval env binary factory rl info hsuffix,
        afterParse_force_eval
          { env with parseFile := fun p =>
              if p = binary then Except.ok { info with crc := { ok := true } }
              else env.parseFile p }
          binary factory rl { info with crc := { ok := true } } hsuffix]
    rfl

/-- Witness for C2 at a concrete environment and CRC-failed image. -/
theorem c2_witness :
    (flashDfu (baseEnv c2Info) "app.bin" false false none).1 =
      Except.error FlashError.crcInvalid :=
  (c2_crc_force (baseEnv c2Info) "app.bin" false none c2Info
     rfl rfl rfl rfl (by decide) rfl).1

/-- Claim C3: the write primitive is only ever invoked with a truthy
(non-empty) destination address, and whenever the chained address is falsy
and the segment table cannot supply a truthy one (entry missing, erroring,
or address-less), the resolution step fails with an error of the
UnknownDestination class — it never defaults to an address. -/
theorem c3_no_null_address :
    (∀ (env : DfuEnv) (binary : String) (factory force : Bool) (rl : Option Bool)
       (plan : FlashPlan),
       (flashDfu env binary factory force rl).1 = Except.ok plan → plan.address ≠ "") ∧
    (∀ (env : DfuEnv) (destSegment destAddress finalBinary : Option String)
       (rl : Option Bool),
       jsTruthy destAddress = false →
       (∀ s a, env.validateSegmentSpecs s = SegmentLookup.specs a → jsTruthy a = false) →
       ∃ e, resolveAndWrite env destSegment destAddress finalBinary rl = Except.error e ∧
            isUnknownDestinationError e = true) := by
  constructor
  · intro env binary factory force rl plan h
    obtain ⟨seg, addr, fb, hr⟩ := flashDfu_ok_resolve env binary factory force rl plan h
    exact (resolveAndWrite_ok_fields env seg addr fb rl plan hr).2.1
  · intro env seg addr fb rl haddr htab
    unfold resolveAndWrite resolveAddress
    by_cases hseg : jsTruthy seg = true
    · rw [if_pos ⟨haddr, hseg⟩]
      cases hlk : env.validateSegmentSpecs (seg.getD "") with
      | error m => exact ⟨FlashError.segmentSpecError m, rfl, rfl⟩
      | specs a =>
        have ha := htab _ _ hlk
        cases a with
        | none => exact ⟨FlashError.unknownDestination, rfl, rfl⟩
        | some str =>
          have hstr : str = "" := by simpa [jsTruthy] using ha
          exact ⟨FlashError.unknownDestination, by subst hstr; rfl, rfl⟩
    · rw [if_neg (fun hx => hseg hx.2)]
      cases addr with
      | none => exact ⟨FlashError.unknownDestination, rfl, rfl⟩
      | some str =>
        have hstr : str = "" := by simpa [jsTruthy] using haddr
        exact ⟨FlashError.unknownDestination, by subst hstr; rfl, rfl⟩

/-- Witness for C3: a successful concrete plan has a non-empty address, and
a concrete all-erroring segment table makes the resolution step fail in the
UnknownDestination class. -/
theorem c3_witness :
    ({ segmentName := some "userFirmware", address := "0x080A0000",
       imageSource := some "app.bin", leave := true } : FlashPlan).address ≠ "" ∧
    ∃ e, resolveAndWrite c3Env (some "userFirmware") none none none = Except.error e ∧
         isUnknownDestinationError e = true :=
  ⟨c3_no_null_address.1 (baseEnv plainInfo) "app.bin" false false none
     { segmentName := some "userFirmware", address := "0x080A0000",
       imageSource := some "app.bin", leave := true } rfl,
   c3_no_null_address.2 c3Env (some "userFirmware") none none none rfl
     (fun s a h => by simp [c3Env] at h)⟩

/-- Claim C6: on every resolved plan the leave-bootloader flag equals the
explicitly requested value when one is supplied and is otherwise true
exactly when the resolved segment is userFirmware; in particular a
factory-flashed USER_PART image resolves to the factoryReset segment with
the flag false unless explicitly overridden. -/
theorem c6_leave_bootloader :
    (∀ (env : DfuEnv) (binary : String) (factory force : Bool) (rl : Option Bool)
       (plan : FlashPlan),
       (flashDfu env binary factory force rl).1 = Except.ok plan →
       (∀ l, rl = some l → plan.leave = l) ∧
       (rl = none → (plan.leave = true ↔ plan.segmentName = some "userFirmware"))) ∧
    (∀ (env : DfuEnv) (binary : String) (force : Bool) (rl : Option Bool)
       (info : ParsedInfo),
       env.dfuUtilInstalled = true → env.findCompatibleDFUOk = true →
       env.stat binary = FileStat.file → env.parseFile binary = Except.ok info →
       info.suffixInfo.suffixSize ≠ 65535 →
       (info.crc.ok = true ∨ force = true) →
       (info.prefixInfo.platformID = env.deviceSpecs.productId ∨ force = true) →
       info.prefixInfo.moduleFunction = FunctionType.USER_PART →
       ∀ a, env.validateSegmentSpecs "factoryReset" = SegmentLookup.specs (some a) →
         a ≠ "" →
         (flashDfu env binary true force rl).1 =
           Except.ok { segmentName := some "factoryReset", address := a,
                       imageSource := some (finalImage env binary info.prefixInfo),
                       leave := rl.getD false }) := by
  constructor
  · intro env binary factory force rl plan h
    obtain ⟨seg, addr, fb, hr⟩ := flashDfu_ok_resolve env binary factory force rl plan h
    obtain ⟨hseg, -, -, hleave⟩ := resolveAndWrite_ok_fields env seg addr fb rl plan hr
    constructor
    · intro l hl
      rw [hl] at hleave
      simpa using hleave
    · intro hn
      rw [hn] at hleave
      simp only [Option.getD_none] at hleave
      rw [hleave, hseg]
      exact decide_eq_true_iff
  · intro env binary force rl info hdfu hfind hstat hparse hsuffix hcrc hplat hmf a hla ha
    rw [flashDfu_user_part_eval env binary true force rl info
          hdfu hfind hstat hparse hsuffix hcrc hplat hmf]
    show resolveAndWrite env (some "factoryReset") none
        (some (finalImage env binary info.prefixInfo)) rl = _
    rw [resolveAndWrite_lookup env "factoryReset" (by simp)
          (some (finalImage env binary info.prefixInfo)) rl a hla ha]
    simp

/-- Witness for C6: the factory-flag scenario at a concrete environment. -/
theorem c6_witness :
    (flashDfu (baseEnv c6Info) "app.bin" true false none).1 =
      Except.ok { segmentName := some "factoryReset", address := "0x080E0000",
                  imageSource := some "app.bin", leave := false } :=
  c6_leave_bootloader.2 (baseEnv c6Info) "app.bin" false none c6Info
    rfl rfl rfl rfl (by decide) (Or.inl rfl) (Or.inl rfl) rfl "0x080E0000" rfl (by decide)

/-- Claim C8: with force set, the CRC, platform and unknown-module-function
failures can never be the outcome; every other failure still aborts — in
particular a descriptor parse failure, a missing file with no known-app
match, and an unresolvable destination address. -/
theorem c8_force_scope :
    (∀ (env : DfuEnv) (binary : String) (factory : Bool) (rl : Option Bool),
       (flashDfu env binary factory true rl).1 ≠ Except.error FlashError.crcInvalid ∧
       (∀ x y, (flashDfu env binary factory true rl).1 ≠
               Except.error (FlashError.platformMismatch x y)) ∧
       (∀ c, (flashDfu env binary factory true rl).1 ≠
             Except.error (FlashError.unknownModuleFunction c))) ∧
    (∀ (env : DfuEnv) (binary : String) (factory : Bool) (rl : Option Bool) (m : String),
       env.dfuUtilInstalled = true → env.findCompatibleDFUOk = true →
       env.stat binary = FileStat.file → env.parseFile binary = Except.error m →
       (flashDfu env binary factory true rl).1 =
         Except.error (FlashError.parseFailed m)) ∧
    (∀ (env : DfuEnv) (binary : String) (factory : Bool) (rl : Option Bool),
       env.dfuUtilInstalled = true → env.findCompatibleDFUOk = true →
       env.stat binary = FileStat.notFound → env.checkKnownApp binary = none →
       (flashDfu env binary factory true rl).1 =
         Except.error FlashError.fileNotFoundNoKnownApp) ∧
    (∀ (env : DfuEnv) (binary : String) (factory : Bool) (rl : Option Bool)
       (info : ParsedInfo),
       env.dfuUtilInstalled = true → env.findCompatibleDFUOk = true →
       env.stat binary = FileStat.file → env.parseFile binary = Except.ok info →
       info.suffixInfo.suffixSize ≠ 65535 →
       info.prefixInfo.moduleFunction = FunctionType.USER_PART →
       env.validateSegmentSpecs (defaultSegment factory) = SegmentLookup.specs none →
       (flashDfu env binary factory true rl).1 =
         Except.error FlashError.unknownDestination) := by
  refine ⟨?_, ?_, ?_, ?_⟩
  · intro env binary factory rl
    refine ⟨?_, ?_, ?_⟩
    · intro h
      rcases flashDfu_force_error_class env binary factory rl _ h with
        h | h | h | h | ⟨m, h⟩ | h <;> simp [isUnknownDestinationError] at h
    · intro x y h
      rcases flashDfu_force_error_class env binary factory rl _ h with
        h | h | h | h | ⟨m, h⟩ | h <;> simp [isUnknownDestinationError] at h
    · intro c h
      rcases flashDfu_force_error_class env binary factory rl _ h with
        h | h | h | h | ⟨m, h⟩ | h <;> simp [isUnknownDestinationError] at h
  · intro env binary factory rl m hdfu hfind hstat hparse
    unfold flashDfu
    rw [hdfu, hfind, hstat, hparse]
    rfl
  · intro env binary factory rl hdfu hfind hstat happ
    unfold flashDfu
    rw [hdfu, hfind, hstat, happ]
    rfl
  · intro env binary factory rl info hdfu hfind hstat hparse hsuffix hmf hla
    rw [flashDfu_user_part_eval env binary factory true rl info
          hdfu hfind hstat hparse hsuffix (Or.inr rfl) (Or.inr rfl) hmf]
    show resolveAndWrite env (some (defaultSegment factory)) none
        (some (finalImage env binary info.prefixInfo)) rl = _
    rw [resolveAndWrite_lookup_none env (defaultSegment factory)
          (defaultSegment_ne_empty factory)
          (some (finalImage env binary info.prefixInfo)) rl hla]

/-- Witness for C8: force does not rescue a parse failure, a missing file
with no known app, an address-less segment entry; and a forced CRC-failed
image does not abort with the CRC error. -/
theorem c8_witness :
    (flashDfu c8ParseEnv "app.bin" false true none).1 =
        Except.error (FlashError.parseFailed "decode failure") ∧
    (flashDfu (baseEnv plainInfo) "missing.bin" false true none).1 =
        Except.error FlashError.fileNotFoundNoKnownApp ∧
    (flashDfu c8DestEnv "app.bin" false true none).1 =
        Except.error FlashError.unknownDestination ∧
    (flashDfu (baseEnv c2Info) "app.bin" false true none).1 ≠
        Except.error FlashError.crcInvalid :=
  ⟨c8_force_scope.2.1 c8ParseEnv "app.bin" false none "decode failure" rfl rfl rfl rfl,
   c8_force_scope.2.2.1 (baseEnv plainInfo) "missing.bin" false none rfl rfl rfl rfl,
   c8_force_scope.2.2.2 c8DestEnv "app.bin" false none plainInfo rfl rfl rfl rfl
     (by decide) rfl rfl,
   (c8_force_scope.1 (baseEnv c2Info) "app.bin" false none).1⟩

/-- Counterexample for C9 as stated: with a non-empty files list and a
device argument that is a human-readable name (not a device id), the
dispatcher does not discard the device argument — it resolves it and hands
the resolved id to the DFU flow, not `none`. -/
theorem c9_counterexample :
    flash c9Env (some "myphoton") none ["app.bin"] true false false false none none false =
      Except.ok (DispatchOutcome.dfu (some "123456789abcdef012345678") (some "app.bin")
        false false) ∧
    Except.ok (DispatchOutcome.dfu (some "123456789abcdef012345678") (some "app.bin")
        false false) ≠
      (Except.ok (DispatchOutcome.dfu none (some "app.bin") false false) :
        Except DispatchError DispatchOutcome) :=
  ⟨rfl, by simp⟩

/-- Claim C9 as amended: in USB mode with a non-empty files list, the first
file becomes the image and the device argument is retained (not
discarded): used as-is when it is a fully-qualified device id, and
otherwise resolved through the external directory lookup, whose failure
(thrown, or yielding no truthy id) is fatal and wrapped. -/
theorem c9_usb_device_retained (env : FlashEnv) (d : String) (hd : d ≠ "")
    (binary : Option String) (f : String) (rest : List String)
    (serial factory force : Bool) (target port : Option String) (yes : Bool) :
    (env.isDeviceId d = true →
       flash env (some d) binary (f :: rest) true serial factory force target port yes =
         Except.ok (DispatchOutcome.dfu (some d) (some f) factory force)) ∧
    (env.isDeviceId d = false →
       (∀ e, env.getDevice d = Except.error e →
          flash env (some d) binary (f :: rest) true serial factory force target port yes =
            Except.error (DispatchError.deviceLookupFailed (some e))) ∧
       (env.getDevice d = Except.ok none →
          flash env (some d) binary (f :: rest) true serial factory force target port yes =
            Except.error (DispatchError.deviceLookupFailed none)) ∧
       (∀ devId, devId ≠ "" → env.getDevice d = Except.ok (some devId) →
          flash env (some d) binary (f :: rest) true serial factory force target port yes =
            Except.ok (DispatchOutcome.dfu (some devId) (some f) factory force))) := by
  constructor
  · intro hid
    simp [flash, jsTruthy, hd, hid]
  · intro hid
    refine ⟨?_, ?_, ?_⟩
    · intro e he
      simp [flash, jsTruthy, hd, hid, he]
    · intro he
      simp [flash, jsTruthy, hd, hid, he]
    · intro devId hne he
      simp [flash, jsTruthy, hd, hid, he, hne]

/-- Witness for the amended C9 at the concrete directory environment. -/
theorem c9_witness :
    flash c9Env (some "myphoton") none ["app.bin"] true false false false none none false =
      Except.ok (DispatchOutcome.dfu (some "123456789abcdef012345678") (some "app.bin")
        false false) :=
  ((c9_usb_device_retained c9Env "myphoton" (by decide) none "app.bin" []
      false false false none none false).2 (by decide)).2.2
    "123456789abcdef012345678" (by decide) rfl

end Particle
